import Mathlib

/-!
Shallow embedding of the rule-based symptom analyzer
(`utils/symptom_analyzer.py`) and proofs of the specified properties.

Conventions of the embedding:
* Python float arithmetic on scores is modelled by exact rational
  arithmetic over `ℚ` (all scores are quotients of small naturals).
* Python dict lookups with a default (`d.get(k, v)`) are modelled by
  `dictGet`; the condition catalog and advice table keep their
  insertion order as association lists.
* `list.sort(key=..., reverse=True)` is a stable descending sort; it is
  modelled by the stable insertion sort `sortDesc`.
* `random.sample(pool, k)` is modelled by an oracle parameter `sample`
  passed to `analyze_symptoms`.
* The dynamic-typing failure mode caught by the `try/except` block in
  `analyze_symptoms` (for example a non-iterable `symptoms` argument) is
  modelled by the `SymptomsValue` type and the `Except` monad.
-/

/-- One entry of the condition catalog, keeping the Python dict keys. -/
structure ConditionData where
  description : String
  common_symptoms : List String
  diet_recommendations : List String
  risk_level : String
  seek_medical_attention : Bool
deriving Repr, DecidableEq

/-- Catalog data of "Common Cold". -/
def commonColdData : ConditionData :=
    { description := "A viral infection of the upper respiratory tract",
      common_symptoms := ["Cough", "Sore throat", "Runny nose", "Congestion", "Sneezing", "Fever"],
      diet_recommendations := [
        "Stay hydrated with water, herbal teas, and broths",
        "Consume vitamin C rich foods like citrus fruits",
        "Eat honey for sore throat (not for children under 1)",
        "Consider warm soups like chicken soup"],
      risk_level := "low", seek_medical_attention := false }

/-- Catalog data of "Influenza (Flu)". -/
def influenzaData : ConditionData :=
    { description := "A contagious respiratory illness caused by influenza viruses",
      common_symptoms := ["Fever", "Cough", "Fatigue", "Body aches", "Headache", "Chills"],
      diet_recommendations := [
        "Increase fluid intake to prevent dehydration",
        "Easy-to-digest foods like toast and crackers",
        "Vitamin C and zinc-rich foods to boost immunity",
        "Avoid alcohol and caffeine"],
      risk_level := "moderate", seek_medical_attention := false }

/-- Catalog data of "COVID-19". -/
def covid19Data : ConditionData :=
    { description := "A respiratory illness caused by the SARS-CoV-2 virus",
      common_symptoms := ["Fever", "Cough", "Shortness of breath", "Fatigue", "Loss of taste or smell"],
      diet_recommendations := [
        "Stay well-hydrated with water and electrolyte drinks",
        "Consume protein-rich foods for recovery",
        "Vitamin D-rich foods may support immune function",
        "Zinc and vitamin C rich foods"],
      risk_level := "moderate", seek_medical_attention := true }

/-- Catalog data of "Migraine". -/
def migraineData : ConditionData :=
    { description := "A neurological condition characterized by severe headaches",
      common_symptoms := ["Headache", "Nausea", "Sensitivity to light", "Blurred vision"],
      diet_recommendations := [
        "Avoid trigger foods (aged cheese, alcohol, chocolate)",
        "Stay hydrated throughout the day",
        "Magnesium-rich foods like nuts and seeds",
        "Regular, balanced meals to maintain blood sugar"],
      risk_level := "low", seek_medical_attention := false }

/-- Catalog data of "Gastroenteritis". -/
def gastroenteritisData : ConditionData :=
    { description := "Inflammation of the stomach and intestines",
      common_symptoms := ["Nausea", "Vomiting", "Diarrhea", "Abdominal pain", "Fever"],
      diet_recommendations := [
        "Follow the BRAT diet (bananas, rice, applesauce, toast)",
        "Clear liquids to prevent dehydration",
        "Avoid dairy, fatty, and spicy foods",
        "Gradually reintroduce normal diet as symptoms improve"],
      risk_level := "moderate", seek_medical_attention := false }

/-- Catalog data of "Hypertension". -/
def hypertensionData : ConditionData :=
    { description := "High blood pressure that can lead to serious health problems",
      common_symptoms := ["Headache", "Dizziness", "Chest pain", "Shortness of breath"],
      diet_recommendations := [
        "Reduce sodium intake (less processed foods)",
        "DASH diet (fruits, vegetables, whole grains)",
        "Limit alcohol consumption",
        "Potassium-rich foods like bananas and potatoes"],
      risk_level := "moderate", seek_medical_attention := true }

/-- Catalog data of "Anxiety Disorder". -/
def anxietyDisorderData : ConditionData :=
    { description := "A mental health condition characterized by persistent worry and fear",
      common_symptoms := ["Anxiety", "Restlessness", "Rapid heartbeat", "Sweating", "Fatigue", "Insomnia"],
      diet_recommendations := [
        "Complex carbohydrates for serotonin production",
        "Omega-3 fatty acids (fish, walnuts, flaxseed)",
        "Limit caffeine and alcohol intake",
        "Magnesium-rich foods to support nervous system"],
      risk_level := "low", seek_medical_attention := false }

/-- Catalog data of "Asthma". -/
def asthmaData : ConditionData :=
    { description := "A chronic condition affecting the airways in the lungs",
      common_symptoms := ["Shortness of breath", "Wheezing", "Chest tightness", "Cough"],
      diet_recommendations := [
        "Vitamin D-rich foods (fatty fish, egg yolks)",
        "Antioxidant-rich fruits and vegetables",
        "Omega-3 fatty acids to reduce inflammation",
        "Stay hydrated and maintain healthy weight"],
      risk_level := "moderate", seek_medical_attention := true }

/-- Catalog data of "Allergic Rhinitis". -/
def allergicRhinitisData : ConditionData :=
    { description := "Inflammation of the nasal passages caused by allergens",
      common_symptoms := ["Runny nose", "Sneezing", "Congestion", "Itchy eyes", "Fatigue"],
      diet_recommendations := [
        "Anti-inflammatory foods (fatty fish, berries)",
        "Vitamin C-rich foods to support immune system",
        "Local honey may help with pollen allergies",
        "Avoid known food allergens"],
      risk_level := "low", seek_medical_attention := false }

/-- Catalog data of "Irritable Bowel Syndrome (IBS)". -/
def ibsData : ConditionData :=
    { description := "A chronic disorder affecting the large intestine",
      common_symptoms := ["Abdominal pain", "Bloating", "Diarrhea", "Constipation"],
      diet_recommendations := [
        "Low-FODMAP diet (limit certain carbohydrates)",
        "Increase soluble fiber intake gradually",
        "Avoid trigger foods (caffeine, alcohol, fatty foods)",
        "Stay hydrated and eat smaller, regular meals"],
      risk_level := "low", seek_medical_attention := false }

/-- Catalog data of "Type 2 Diabetes". -/
def diabetesData : ConditionData :=
    { description := "A chronic condition affecting how the body processes blood sugar",
      common_symptoms := ["Increased thirst", "Frequent urination", "Fatigue", "Blurred vision", "Weight loss"],
      diet_recommendations := [
        "Focus on low glycemic index foods",
        "Control carbohydrate intake and portion sizes",
        "Increase fiber intake through whole grains",
        "Limit sugary and processed foods"],
      risk_level := "high", seek_medical_attention := true }

/-- Catalog data of "Urinary Tract Infection (UTI)". -/
def utiData : ConditionData :=
    { description := "An infection affecting the urinary system",
      common_symptoms := ["Burning during urination", "Frequent urination", "Cloudy urine", "Pelvic pain"],
      diet_recommendations := [
        "Increase water intake significantly",
        "Cranberry juice or supplements",
        "Probiotic-rich foods like yogurt",
        "Vitamin C to make urine more acidic"],
      risk_level := "moderate", seek_medical_attention := true }

/-- Catalog data of "Anemia". -/
def anemiaData : ConditionData :=
    { description := "A condition where you lack enough healthy red blood cells",
      common_symptoms := ["Fatigue", "Weakness", "Pale skin", "Shortness of breath", "Dizziness"],
      diet_recommendations := [
        "Iron-rich foods (lean meats, beans, spinach)",
        "Vitamin C to enhance iron absorption",
        "Vitamin B12 sources (meat, eggs, dairy)",
        "Folate-rich foods (leafy greens, citrus)"],
      risk_level := "moderate", seek_medical_attention := true }

/-- The catalog `CONDITIONS_DATABASE`, in its Python insertion order. -/
def CONDITIONS_DATABASE : List (String × ConditionData) := [
  ("Common Cold", commonColdData),
  ("Influenza (Flu)", influenzaData),
  ("COVID-19", covid19Data),
  ("Migraine", migraineData),
  ("Gastroenteritis", gastroenteritisData),
  ("Hypertension", hypertensionData),
  ("Anxiety Disorder", anxietyDisorderData),
  ("Asthma", asthmaData),
  ("Allergic Rhinitis", allergicRhinitisData),
  ("Irritable Bowel Syndrome (IBS)", ibsData),
  ("Type 2 Diabetes", diabetesData),
  ("Urinary Tract Infection (UTI)", utiData),
  ("Anemia", anemiaData)]

/-- The citation pool `MEDICAL_SOURCES`. -/
def MEDICAL_SOURCES : List String := [
  "Mayo Clinic (https://www.mayoclinic.org)",
  "Centers for Disease Control and Prevention (https://www.cdc.gov)",
  "World Health Organization (https://www.who.int)",
  "National Institutes of Health (https://www.nih.gov)",
  "Cleveland Clinic (https://my.clevelandclinic.org)",
  "American Academy of Family Physicians (https://www.aafp.org)"]

/-- The advice table `GENERAL_ADVICE`, in its Python insertion order. -/
def GENERAL_ADVICE : List (String × String) := [
  ("respiratory", "Ensure adequate rest, stay hydrated, and consider using a humidifier to ease breathing. Avoid smoking and secondhand smoke."),
  ("digestive", "Stay hydrated, eat small and frequent meals, and avoid foods that trigger your symptoms. Consider keeping a food diary to identify triggers."),
  ("cardiovascular", "Maintain a heart-healthy diet low in sodium and saturated fats. Regular physical activity and stress management are important."),
  ("neurological", "Ensure adequate rest, maintain regular sleep patterns, and practice stress-reduction techniques like meditation or deep breathing."),
  ("musculoskeletal", "Apply ice to reduce inflammation and heat to relieve muscle tension. Gentle stretching and proper ergonomics can help prevent further issues."),
  ("mental_health", "Practice stress management techniques, maintain social connections, and establish regular sleep and exercise routines."),
  ("general", "Ensure adequate rest, stay hydrated, and maintain a balanced diet rich in fruits and vegetables. Regular moderate exercise can help boost your immune system.")]

/-- Python `d.get(k, dflt)` on a string-keyed association list. -/
def dictGet (d : List (String × String)) (k : String) (dflt : String) : String :=
  match d.find? (fun p => p.1 == k) with
  | some p => p.2
  | none => dflt

/-- The `system_mapping` table of `get_system_category`, in order. -/
def system_mapping : List (String × List String) := [
  ("respiratory", ["Cough", "Shortness of breath", "Sore throat", "Runny nose", "Congestion", "Wheezing"]),
  ("digestive", ["Nausea", "Vomiting", "Diarrhea", "Constipation", "Abdominal pain", "Bloating"]),
  ("cardiovascular", ["Chest pain", "Rapid heartbeat", "Shortness of breath", "Dizziness", "Fatigue"]),
  ("neurological", ["Headache", "Dizziness", "Confusion", "Numbness", "Tingling sensation", "Blurred vision"]),
  ("musculoskeletal", ["Muscle pain", "Joint pain", "Back pain", "Weakness"]),
  ("mental_health", ["Anxiety", "Depression", "Insomnia", "Fatigue"])]

/-- Count of list elements contained in `pool` (Python
`sum(1 for s in symptoms if s in pool)` for one pool). -/
def countContains (symptoms pool : List String) : Nat :=
  symptoms.countP (fun s => pool.contains s)

/-- The per-system symptom counts built by the loop of
`get_system_category`: for each system, the number of user symptoms that
occur in its representative list. -/
def system_counts (symptoms : List String) : List (String × Nat) :=
  system_mapping.map (fun p => (p.1, countContains symptoms p.2))

/-- Python `max(items, key=lambda x: x[1])`: first pair with the
maximal second component (`max` keeps the earlier item on ties). -/
def pyMaxBySnd (x : String × Nat) (xs : List (String × Nat)) : String × Nat :=
  xs.foldl (fun best p => if best.2 < p.2 then p else best) x

/-- `get_system_category(symptoms)`. -/
def get_system_category (symptoms : List String) : String :=
  match system_counts symptoms with
  | [] => "general"
  | c :: cs =>
    if (c :: cs).any (fun p => 0 < p.2) then (pyMaxBySnd c cs).1
    else "general"

/-- `calculate_symptom_match(user_symptoms, condition_symptoms)`;
float arithmetic modelled over `ℚ`. -/
def calculate_symptom_match (user_symptoms condition_symptoms : List String) : ℚ :=
  if condition_symptoms.isEmpty then 0
  else
    let matchCount : ℚ := (countContains user_symptoms condition_symptoms : ℚ)
    let coverage : ℚ := matchCount / (condition_symptoms.length : ℚ)
    let relevance : ℚ :=
      if user_symptoms.isEmpty then 0 else matchCount / (user_symptoms.length : ℚ)
    coverage * (7/10) + relevance * (3/10)

/-- The `severity_factor` dict lookup with default 0:
`{"Mild": 0, "Moderate": 1, "Severe": 2}.get(severity, 0)`. -/
def severity_factor (severity : String) : Nat :=
  if severity = "Mild" then 0
  else if severity = "Moderate" then 1
  else if severity = "Severe" then 2
  else 0

/-- `determine_risk_level(symptom_match, severity, age)`. -/
def determine_risk_level (symptom_match : ℚ) (severity : String) (age : ℤ) : String :=
  let base_risk : Nat :=
    if symptom_match > 7/10 then 3
    else if symptom_match > 4/10 then 2
    else 1
  let age_factor : Nat := if age < 5 ∨ age > 65 then 1 else 0
  let total_risk := base_risk + severity_factor severity + age_factor
  if total_risk ≥ 4 then "high"
  else if total_risk ≥ 2 then "moderate"
  else "low"

/-- `should_seek_medical_attention(risk_level, severity, duration)`. -/
def should_seek_medical_attention (risk_level severity duration : String) : Bool :=
  if risk_level = "high" then true
  else if severity = "Severe" then true
  else if severity = "Moderate" ∧ duration ∈ ["Weeks", "Months", "Years"] then true
  else false

/-- One element of the `condition_matches` list:
the Python tuple `(condition_name, match_score, condition_data)`. -/
structure CondMatch where
  name : String
  score : ℚ
  data : ConditionData
deriving Repr, DecidableEq

/-- The `condition_matches` list built by the catalog loop of
`analyze_symptoms`: one entry per catalog condition whose match score is
strictly positive, in catalog order. -/
def condition_matches (symptoms : List String) : List CondMatch :=
  CONDITIONS_DATABASE.filterMap (fun p =>
    let match_score := calculate_symptom_match symptoms p.2.common_symptoms
    if match_score > 0 then some ⟨p.1, match_score, p.2⟩ else none)

/-- Insertion step of the stable descending sort: the new element goes
in front of the first element whose score it reaches (so earlier
elements win ties, as in Python list.sort). -/
def insertDesc (x : CondMatch) : List CondMatch → List CondMatch
  | [] => [x]
  | y :: ys => if y.score ≤ x.score then x :: y :: ys else y :: insertDesc x ys

/-- Stable sort by descending score:
`condition_matches.sort(key=lambda x: x[1], reverse=True)`. -/
def sortDesc : List CondMatch → List CondMatch
  | [] => []
  | x :: xs => insertDesc x (sortDesc xs)

/-- `top_matches = condition_matches[:5]` after the descending sort. -/
def top_matches (symptoms : List String) : List CondMatch :=
  (sortDesc (condition_matches symptoms)).take 5

/-- Projection of a candidate into the output dict shape. -/
structure ConditionView where
  name : String
  description : String
  common_symptoms : List String
  diet_recommendations : List String
deriving Repr, DecidableEq

/-- Projection of one candidate into the output dict shape
(`name`, `description`, `common_symptoms`, `diet_recommendations`);
the intrinsic risk and attention fields are dropped. -/
def toConditionView (m : CondMatch) : ConditionView :=
  ⟨m.name, m.data.description, m.data.common_symptoms, m.data.diet_recommendations⟩

/-- The result dict of `analyze_symptoms`. The `error` and `message`
keys, absent in Python on the success path, are `false` and `""` there. -/
structure AnalysisResult where
  error : Bool
  message : String
  possible_conditions : List ConditionView
  risk_level : String
  seek_medical_attention : Bool
  general_advice : String
  medical_sources : List String
deriving Repr, DecidableEq

/-- The dynamically typed `symptoms` argument: either an iterable list
of strings or a non-iterable value (such as Python `None`). -/
inductive SymptomsValue where
  | pyList (syms : List String) : SymptomsValue
  | pyNone : SymptomsValue
deriving Repr, DecidableEq

/-- Iterating the `symptoms` argument; a non-iterable value raises
`TypeError`, modelled as an `Except.error` carrying `str(e)`. -/
def iterList : SymptomsValue → Except String (List String)
  | .pyList syms => .ok syms
  | .pyNone => .error "\x27NoneType\x27 object is not iterable"

/-- The disclaimer appended to the general advice. -/
def DISCLAIMER : String :=
  "\n\nDISCLAIMER: This analysis is not a medical diagnosis. It\x27s based on a rule-based system using common symptom patterns."

/-- The body of the `try` block of `analyze_symptoms`. `sample` is the
oracle standing for `random.sample`. -/
def analyze_symptoms_body (sample : List String → Nat → List String)
    (symptoms : SymptomsValue) (age : ℤ) (gender : String)
    (duration severity : String) (additional_info : String := "") :
    Except String AnalysisResult := do
  let syms ← iterList symptoms
  let top := top_matches syms
  let risk_level : String :=
    match top with
    | best :: _ => determine_risk_level best.score severity age
    | [] => "low"
  let seek := should_seek_medical_attention risk_level severity duration
  let primary_system := get_system_category syms
  let general_advice := dictGet GENERAL_ADVICE primary_system (dictGet GENERAL_ADVICE "general" "")
  let possible_conditions := top.map toConditionView
  let selected_sources := sample MEDICAL_SOURCES (min 3 MEDICAL_SOURCES.length)
  pure { error := false, message := "",
         possible_conditions := possible_conditions,
         risk_level := risk_level,
         seek_medical_attention := seek,
         general_advice := general_advice ++ DISCLAIMER,
         medical_sources := selected_sources }

/-- `analyze_symptoms`: the `try/except` wrapper around the body. -/
def analyze_symptoms (sample : List String → Nat → List String)
    (symptoms : SymptomsValue) (age : ℤ) (gender : String)
    (duration severity : String) (additional_info : String := "") :
    AnalysisResult :=
  match analyze_symptoms_body sample symptoms age gender duration severity additional_info with
  | .ok r => r
  | .error e =>
    { error := true,
      message := "Error analyzing symptoms: " ++ e,
      possible_conditions := [],
      risk_level := "unknown",
      seek_medical_attention := true,
      general_advice := "We encountered an error analyzing your symptoms. Please try again or consult a healthcare professional.",
      medical_sources := ["https://www.who.int", "https://www.mayoclinic.org"] }

/-! ## Spec-side definitions used to state the claims -/

/-- The risk tier written as the point system of spec section 4.2:
base points from the best match score, severity points, age points,
then thresholds on the total. -/
def risk_points_spec (bestMatchScore : ℚ) (severity : String) (age : ℤ) : String :=
  let base : Nat :=
    if bestMatchScore > 7/10 then 3 else if bestMatchScore > 4/10 then 2 else 1
  let sevPts : Nat :=
    if severity = "Mild" then 0 else if severity = "Moderate" then 1 else 2
  let agePts : Nat := if age < 5 ∨ age > 65 then 1 else 0
  let total := base + sevPts + agePts
  if total ≥ 4 then "high" else if total ≥ 2 then "moderate" else "low"

/-! ## Claims -/

/-- C2: `calculate_symptom_match` returns 0 on an empty condition
symptom sequence, and otherwise equals
`0.7 * (matches / |conditionSymptoms|) + 0.3 * (matches / |userSymptoms|)`
(the relevance term taken as 0 for an empty user symptom set), where
`matches` counts the user symptoms occurring in the condition symptoms
under exact string equality. -/
theorem calculate_symptom_match_formula (u c : List String) :
    calculate_symptom_match u c =
      if c = [] then 0
      else
        (7/10) * ((u.countP (fun s => decide (s ∈ c)) : ℚ) / (c.length : ℚ)) +
        (3/10) * (if u = [] then 0
                  else (u.countP (fun s => decide (s ∈ c)) : ℚ) / (u.length : ℚ)) := by
  have hcount : u.countP (fun s => decide (s ∈ c)) = countContains u c := by
    unfold countContains
    refine List.countP_congr (fun a _ => ?_)
    simp
  rw [hcount]
  unfold calculate_symptom_match
  rcases eq_or_ne c [] with hc | hc
  · simp [hc]
  · rcases eq_or_ne u [] with hu | hu
    · subst hu
      simp [hc, List.isEmpty_iff, countContains, mul_comm]
    · simp only [List.isEmpty_iff, hc, hu, if_false, eq_self_iff_true]
      ring

/-- C4: `should_seek_medical_attention` returns true exactly when the
risk level is high, or the severity is Severe, or the severity is
Moderate with a duration of Weeks, Months or Years; in particular for
(high, Mild, Hours) it is true, for (low, Moderate, Weeks) it is true,
and for (low, Moderate, Days) it is false. -/
theorem should_seek_medical_attention_iff :
    (∀ risk severity duration,
      should_seek_medical_attention risk severity duration = true ↔
        (risk = "high" ∨ severity = "Severe" ∨
          (severity = "Moderate" ∧ duration ∈ ["Weeks", "Months", "Years"]))) ∧
    should_seek_medical_attention "high" "Mild" "Hours" = true ∧
    should_seek_medical_attention "low" "Moderate" "Weeks" = true ∧
    should_seek_medical_attention "low" "Moderate" "Days" = false := by
  refine ⟨fun risk severity duration => ?_, by decide, by decide, by decide⟩
  unfold should_seek_medical_attention
  split_ifs with h1 h2 h3 <;> simp_all

/-- C3: for a severity in the enumeration and a positive age,
`determine_risk_level` equals the point system of the spec: base points
3/2/1 by strict comparison of the best match score with 0.7 and 0.4,
severity points 0/1/2, one age point below 5 or above 65, and the
total mapped through the thresholds 4 and 2. -/
theorem determine_risk_level_points (score : ℚ) (severity : String) (age : ℤ)
    (hsev : severity ∈ ["Mild", "Moderate", "Severe"]) (hage : 0 < age) :
    determine_risk_level score severity age = risk_points_spec score severity age := by
  have hsev' : severity = "Mild" ∨ severity = "Moderate" ∨ severity = "Severe" := by
    simpa using hsev
  rcases hsev' with h | h | h <;> subst h <;> rfl

/-- Witness for C3 at score 0.7, severity Moderate, age 30; the value
"moderate" shows that a score of exactly 0.7 earns base 2, not 3
(base 3 plus the Moderate point would reach the "high" threshold). -/
theorem determine_risk_level_points_witness :
    "Moderate" ∈ ["Mild", "Moderate", "Severe"] ∧ (0 : ℤ) < 30 ∧
    determine_risk_level (7/10) "Moderate" 30 = risk_points_spec (7/10) "Moderate" 30 ∧
    determine_risk_level (7/10) "Moderate" 30 = "moderate" := by
  refine ⟨by decide, by decide,
    determine_risk_level_points (7/10) "Moderate" 30 (by decide) (by decide), ?_⟩
  norm_num [determine_risk_level, severity_factor]
  decide

/-- C10: a severity outside the enumeration contributes 0 severity
points, exactly as Mild does, and the attention recommender then
returns true only through the high-risk rule. -/
theorem out_of_enum_severity (severity : String)
    (h : severity ∉ ["Mild", "Moderate", "Severe"]) :
    severity_factor severity = 0 ∧
    (∀ score age, determine_risk_level score severity age =
      determine_risk_level score "Mild" age) ∧
    (∀ risk duration, should_seek_medical_attention risk severity duration =
      decide (risk = "high")) := by
  have h' : ¬ severity = "Mild" ∧ ¬ severity = "Moderate" ∧ ¬ severity = "Severe" := by
    simpa using h
  obtain ⟨h1, h2, h3⟩ := h'
  refine ⟨by simp [severity_factor, h1, h2, h3], fun score age => ?_, fun risk duration => ?_⟩
  · simp [determine_risk_level, severity_factor, h1, h2, h3]
  · unfold should_seek_medical_attention
    split_ifs with hr <;> simp_all

/-- Witness for C10 at the out-of-enumeration severity "Unknown". -/
theorem out_of_enum_severity_witness :
    "Unknown" ∉ (["Mild", "Moderate", "Severe"] : List String) ∧
    severity_factor "Unknown" = 0 ∧
    determine_risk_level (1/2) "Unknown" 40 = determine_risk_level (1/2) "Mild" 40 ∧
    should_seek_medical_attention "low" "Unknown" "Years" = decide (("low" : String) = "high") := by
  have h := out_of_enum_severity "Unknown" (by decide)
  exact ⟨by decide, h.1, h.2.1 (1/2) 40, h.2.2 "low" "Years"⟩

/-- Closed form of `calculate_symptom_match` used by several proofs. -/
theorem calc_match_eq (u c : List String) :
    calculate_symptom_match u c =
      if c = [] then 0
      else ((countContains u c : ℚ) / (c.length : ℚ)) * (7/10) +
           (if u = [] then 0 else (countContains u c : ℚ) / (u.length : ℚ)) * (3/10) := by
  unfold calculate_symptom_match
  rcases eq_or_ne c [] with hc | hc
  · simp [hc]
  · rcases eq_or_ne u [] with hu | hu
    · subst hu
      simp [hc, List.isEmpty_iff]
    · simp only [List.isEmpty_iff, hc, hu, if_false]

/-- C8: adding to the user symptoms a symptom of the condition that was
not already reported never decreases the match score. -/
theorem calculate_symptom_match_mono (u c : List String) (s : String)
    (hs : s ∈ c) (hns : s ∉ u) :
    calculate_symptom_match u c ≤ calculate_symptom_match (s :: u) c := by
  have hc : c ≠ [] := by rintro rfl; exact (List.not_mem_nil s) hs
  have hcont : c.contains s = true := by simp [hs]
  have hcount : countContains (s :: u) c = countContains u c + 1 := by
    simp [countContains, List.countP_cons, hcont, hs]
  have hLpos : (0 : ℚ) < (c.length : ℚ) := by
    exact_mod_cast List.length_pos.2 hc
  rw [calc_match_eq, calc_match_eq, if_neg hc, if_neg hc, hcount]
  rcases eq_or_ne u [] with hu | hu
  · subst hu
    have h0 : countContains ([] : List String) c = 0 := by simp [countContains]
    rw [h0, if_pos rfl, if_neg (List.cons_ne_nil s [])]
    norm_num
    positivity
  · rw [if_neg hu, if_neg (List.cons_ne_nil s u)]
    have hn : (0:ℚ) < (u.length : ℚ) := by
      exact_mod_cast List.length_pos.2 hu
    have hmn : (countContains u c : ℚ) ≤ (u.length : ℚ) := by
      exact_mod_cast u.countP_le_length _
    have hm0 : (0:ℚ) ≤ (countContains u c : ℚ) := by positivity
    have key1 : (countContains u c : ℚ) / (c.length : ℚ) ≤
        ((countContains u c + 1 : ℕ) : ℚ) / (c.length : ℚ) := by
      gcongr
      linarith
    have key2 : (countContains u c : ℚ) / (u.length : ℚ) ≤
        ((countContains u c + 1 : ℕ) : ℚ) / (((s :: u).length : ℕ) : ℚ) := by
      have hlen : (((s :: u).length : ℕ) : ℚ) = (u.length : ℚ) + 1 := by
        push_cast [List.length_cons]
        ring
      rw [hlen, div_le_div_iff₀ hn (by linarith)]
      push_cast
      nlinarith
    have := add_le_add (mul_le_mul_of_nonneg_right key1 (by norm_num : (0:ℚ) ≤ 7/10))
      (mul_le_mul_of_nonneg_right key2 (by norm_num : (0:ℚ) ≤ 3/10))
    convert this using 2

/-- Witness for C8: the condition symptom "Cough" of Common Cold added
to a user set not containing it. -/
theorem calculate_symptom_match_mono_witness :
    "Cough" ∈ ["Cough", "Sore throat"] ∧ "Cough" ∉ (["Fever"] : List String) ∧
    calculate_symptom_match ["Fever"] ["Cough", "Sore throat"] ≤
      calculate_symptom_match ("Cough" :: ["Fever"]) ["Cough", "Sore throat"] :=
  ⟨by decide, by decide,
    calculate_symptom_match_mono ["Fever"] ["Cough", "Sore throat"] "Cough"
      (by decide) (by decide)⟩

/-! ## Properties of the stable descending sort -/

/-- Membership after insertion. -/
theorem mem_insertDesc {x y : CondMatch} {l : List CondMatch}
    (h : y ∈ insertDesc x l) : y = x ∨ y ∈ l := by
  induction l with
  | nil => simpa [insertDesc] using h
  | cons z zs ih =>
    simp only [insertDesc] at h
    split at h
    · rcases List.mem_cons.1 h with h1 | h2
      · exact Or.inl h1
      · exact Or.inr h2
    · rcases List.mem_cons.1 h with h1 | h2
      · exact Or.inr (List.mem_cons.2 (Or.inl h1))
      · rcases ih h2 with h3 | h4
        · exact Or.inl h3
        · exact Or.inr (List.mem_cons.2 (Or.inr h4))

/-- Insertion preserves the descending order. -/
theorem pairwise_insertDesc {x : CondMatch} {l : List CondMatch}
    (h : l.Pairwise (fun a b => b.score ≤ a.score)) :
    (insertDesc x l).Pairwise (fun a b => b.score ≤ a.score) := by
  induction l with
  | nil => simp [insertDesc]
  | cons z zs ih =>
    rw [List.pairwise_cons] at h
    obtain ⟨hz, hzs⟩ := h
    simp only [insertDesc]
    split
    case isTrue hle =>
      rw [List.pairwise_cons]
      refine ⟨fun b hb => ?_, List.pairwise_cons.2 ⟨hz, hzs⟩⟩
      rcases List.mem_cons.1 hb with rfl | hb'
      · exact hle
      · exact le_trans (hz b hb') hle
    case isFalse hlt =>
      rw [List.pairwise_cons]
      refine ⟨fun b hb => ?_, ih hzs⟩
      rcases mem_insertDesc hb with rfl | hb'
      · exact le_of_lt (lt_of_not_le hlt)
      · exact hz b hb'

/-- The sorted list is ordered by non-increasing score. -/
theorem sortDesc_pairwise (l : List CondMatch) :
    (sortDesc l).Pairwise (fun a b => b.score ≤ a.score) := by
  induction l with
  | nil => simp [sortDesc]
  | cons x xs ih => exact pairwise_insertDesc ih

/-- Every element of the sorted list comes from the input list. -/
theorem sortDesc_subset {y : CondMatch} {l : List CondMatch}
    (h : y ∈ sortDesc l) : y ∈ l := by
  induction l with
  | nil => simp [sortDesc] at h
  | cons x xs ih =>
    simp only [sortDesc] at h
    rcases mem_insertDesc h with rfl | h'
    · exact List.mem_cons_self _ _
    · exact List.mem_cons.2 (Or.inr (ih h'))

/-- Stability of the insertion step: restricted to any one score value,
insertion puts the new element first and keeps the rest in order. -/
theorem filter_insertDesc (q : ℚ) (x : CondMatch) (l : List CondMatch) :
    (insertDesc x l).filter (fun e => decide (e.score = q)) =
      if x.score = q then x :: l.filter (fun e => decide (e.score = q))
      else l.filter (fun e => decide (e.score = q)) := by
  induction l with
  | nil => by_cases hx : x.score = q <;> simp [insertDesc, hx]
  | cons z zs ih =>
    simp only [insertDesc]
    split
    case isTrue hle =>
      by_cases hx : x.score = q <;> simp [List.filter_cons, hx]
    case isFalse hlt =>
      have hxz : x.score < z.score := lt_of_not_le hlt
      by_cases hx : x.score = q
      · have hz : ¬ (z.score = q) := by
          rw [← hx]
          exact ne_of_gt hxz
        simp [List.filter_cons, hz, ih, hx]
      · simp [List.filter_cons, ih, hx]

/-- Stability of the sort: restricted to any one score value, the
sorted list keeps the input order (ties keep catalog iteration order). -/
theorem filter_sortDesc (q : ℚ) (l : List CondMatch) :
    (sortDesc l).filter (fun e => decide (e.score = q)) =
      l.filter (fun e => decide (e.score = q)) := by
  induction l with
  | nil => rfl
  | cons x xs ih =>
    simp only [sortDesc, filter_insertDesc, List.filter_cons]
    by_cases hx : x.score = q <;> simp [hx, ih]

/-- Every entry of `condition_matches` has a strictly positive score. -/
theorem condition_matches_score_pos {symptoms : List String} {m : CondMatch}
    (h : m ∈ condition_matches symptoms) : 0 < m.score := by
  unfold condition_matches at h
  rcases List.mem_filterMap.1 h with ⟨p, hp, hpm⟩
  dsimp only at hpm
  split at hpm
  case isTrue hpos =>
    obtain rfl := Option.some.inj hpm
    exact hpos
  case isFalse => exact absurd hpm (by simp)

/-- Reduction of `analyze_symptoms` on a well-typed symptom list. -/
theorem analyze_symptoms_pyList (sample : List String → Nat → List String)
    (syms : List String) (age : ℤ) (gender duration severity info : String) :
    analyze_symptoms sample (.pyList syms) age gender duration severity info =
      { error := false, message := "",
        possible_conditions := (top_matches syms).map toConditionView,
        risk_level := match top_matches syms with
          | best :: _ => determine_risk_level best.score severity age
          | [] => "low",
        seek_medical_attention := should_seek_medical_attention
          (match top_matches syms with
           | best :: _ => determine_risk_level best.score severity age
           | [] => "low") severity duration,
        general_advice := dictGet GENERAL_ADVICE (get_system_category syms)
          (dictGet GENERAL_ADVICE "general" "") ++ DISCLAIMER,
        medical_sources := sample MEDICAL_SOURCES (min 3 MEDICAL_SOURCES.length) } := rfl

/-- C5: on a non-error call the candidate list is the projection of the
top matches; it has at most 5 entries, every retained entry has a
strictly positive match score, scores are non-increasing, and ties keep
catalog iteration order (stable sort). -/
theorem analyze_candidates_invariants (sample : List String → Nat → List String)
    (syms : List String) (age : ℤ) (gender duration severity info : String) :
    (analyze_symptoms sample (.pyList syms) age gender duration severity info).possible_conditions
        = (top_matches syms).map toConditionView ∧
    (analyze_symptoms sample (.pyList syms) age gender duration severity info).possible_conditions.length ≤ 5 ∧
    (∀ m ∈ top_matches syms, 0 < m.score) ∧
    (top_matches syms).Pairwise (fun a b => b.score ≤ a.score) ∧
    (∀ q : ℚ, (sortDesc (condition_matches syms)).filter (fun e => decide (e.score = q)) =
      (condition_matches syms).filter (fun e => decide (e.score = q))) := by
  refine ⟨by rw [analyze_symptoms_pyList], ?_, fun m hm => ?_, ?_, fun q => filter_sortDesc q _⟩
  · rw [analyze_symptoms_pyList]
    simp only [List.length_map]
    exact le_trans (List.length_take_le 5 _) (le_refl 5)
  · exact condition_matches_score_pos (sortDesc_subset (List.take_subset _ _ hm))
  · exact (sortDesc_pairwise _).sublist (List.take_sublist 5 _)

/-- C6: whenever the body of `analyze_symptoms` raises, the wrapper
returns the error-flagged fallback result instead of propagating. -/
theorem analyze_symptoms_error_path (sample : List String → Nat → List String)
    (symptoms : SymptomsValue) (age : ℤ) (gender duration severity info e : String)
    (h : analyze_symptoms_body sample symptoms age gender duration severity info = .error e) :
    analyze_symptoms sample symptoms age gender duration severity info =
      { error := true,
        message := "Error analyzing symptoms: " ++ e,
        possible_conditions := [],
        risk_level := "unknown",
        seek_medical_attention := true,
        general_advice := "We encountered an error analyzing your symptoms. Please try again or consult a healthcare professional.",
        medical_sources := ["https://www.who.int", "https://www.mayoclinic.org"] } := by
  unfold analyze_symptoms
  rw [h]

/-- Witness for C6: a non-iterable `symptoms` argument makes the body
raise, and the wrapper returns the fallback result. -/
theorem analyze_symptoms_error_path_witness :
    analyze_symptoms_body (fun l n => l.take n) .pyNone 30 "Male" "Days" "Mild" "" =
      .error "\x27NoneType\x27 object is not iterable" ∧
    analyze_symptoms (fun l n => l.take n) .pyNone 30 "Male" "Days" "Mild" "" =
      { error := true,
        message := "Error analyzing symptoms: \x27NoneType\x27 object is not iterable",
        possible_conditions := [],
        risk_level := "unknown",
        seek_medical_attention := true,
        general_advice := "We encountered an error analyzing your symptoms. Please try again or consult a healthcare professional.",
        medical_sources := ["https://www.who.int", "https://www.mayoclinic.org"] } :=
  ⟨rfl, analyze_symptoms_error_path _ _ _ _ _ _ _ _ rfl⟩

/-- C7: when no catalog entry matches (all scores 0), the candidate
list is empty, the risk level defaults to "low" without running the
point algorithm, and the attention decision uses that "low" risk with
the severity and duration rules. -/
theorem analyze_no_match_defaults (sample : List String → Nat → List String)
    (syms : List String) (age : ℤ) (gender duration severity info : String)
    (h : ∀ p ∈ CONDITIONS_DATABASE, calculate_symptom_match syms p.2.common_symptoms = 0) :
    (analyze_symptoms sample (.pyList syms) age gender duration severity info).possible_conditions = [] ∧
    (analyze_symptoms sample (.pyList syms) age gender duration severity info).risk_level = "low" ∧
    (analyze_symptoms sample (.pyList syms) age gender duration severity info).seek_medical_attention =
      should_seek_medical_attention "low" severity duration := by
  have hcm : condition_matches syms = [] := by
    unfold condition_matches
    rw [List.filterMap_eq_nil_iff]
    intro p hp
    simp [h p hp]
  have htop : top_matches syms = [] := by
    unfold top_matches
    rw [hcm]
    rfl
  rw [analyze_symptoms_pyList]
  simp [htop]

/-- Witness for C7: the symptom "Unrecognized symptom" matches no
catalog entry. -/
theorem analyze_no_match_defaults_witness :
    (analyze_symptoms (fun l n => l.take n) (.pyList ["Unrecognized symptom"]) 30 "Male" "Days" "Mild" "").possible_conditions = [] ∧
    (analyze_symptoms (fun l n => l.take n) (.pyList ["Unrecognized symptom"]) 30 "Male" "Days" "Mild" "").risk_level = "low" ∧
    (analyze_symptoms (fun l n => l.take n) (.pyList ["Unrecognized symptom"]) 30 "Male" "Days" "Mild" "").seek_medical_attention =
      should_seek_medical_attention "low" "Mild" "Days" :=
  analyze_no_match_defaults (fun l n => l.take n) ["Unrecognized symptom"] 30 "Male" "Days" "Mild" ""
    (by
      intro p hp
      fin_cases hp <;>
        simp [calculate_symptom_match, countContains, List.countP_cons,
          commonColdData, influenzaData, covid19Data, migraineData, gastroenteritisData,
          hypertensionData, anxietyDisorderData, asthmaData, allergicRhinitisData,
          ibsData, diabetesData, utiData, anemiaData])

/-- Evaluation of `analyze_symptoms` on end-to-end scenario A:
symptoms Fever, Cough, Congestion, Runny nose; age 30; severity Mild;
duration Days. Common Cold scores 23/30, which exceeds 0.7, so the
point algorithm yields base 3 and total 3, hence risk "moderate". -/
theorem scenarioA_eval (sample : List String → Nat → List String) :
    (analyze_symptoms sample (.pyList ["Fever", "Cough", "Congestion", "Runny nose"]) 30 "Male" "Days" "Mild" "").possible_conditions.map ConditionView.name =
      ["Common Cold", "COVID-19", "Allergic Rhinitis", "Influenza (Flu)", "Asthma"] ∧
    (analyze_symptoms sample (.pyList ["Fever", "Cough", "Congestion", "Runny nose"]) 30 "Male" "Days" "Mild" "").risk_level = "moderate" ∧
    (analyze_symptoms sample (.pyList ["Fever", "Cough", "Congestion", "Runny nose"]) 30 "Male" "Days" "Mild" "").seek_medical_attention = false := by
  have hCold : calculate_symptom_match ["Fever", "Cough", "Congestion", "Runny nose"] commonColdData.common_symptoms = 23/30 := by
    simp [calculate_symptom_match, countContains, List.countP_cons, commonColdData]
    norm_num
  have hFlu : calculate_symptom_match ["Fever", "Cough", "Congestion", "Runny nose"] influenzaData.common_symptoms = 23/60 := by
    simp [calculate_symptom_match, countContains, List.countP_cons, influenzaData]
    norm_num
  have hCovid : calculate_symptom_match ["Fever", "Cough", "Congestion", "Runny nose"] covid19Data.common_symptoms = 43/100 := by
    simp [calculate_symptom_match, countContains, List.countP_cons, covid19Data]
    norm_num
  have hMig : calculate_symptom_match ["Fever", "Cough", "Congestion", "Runny nose"] migraineData.common_symptoms = 0 := by
    simp [calculate_symptom_match, countContains, List.countP_cons, migraineData]
  have hGastro : calculate_symptom_match ["Fever", "Cough", "Congestion", "Runny nose"] gastroenteritisData.common_symptoms = 43/200 := by
    simp [calculate_symptom_match, countContains, List.countP_cons, gastroenteritisData]
    norm_num
  have hHyper : calculate_symptom_match ["Fever", "Cough", "Congestion", "Runny nose"] hypertensionData.common_symptoms = 0 := by
    simp [calculate_symptom_match, countContains, List.countP_cons, hypertensionData]
  have hAnx : calculate_symptom_match ["Fever", "Cough", "Congestion", "Runny nose"] anxietyDisorderData.common_symptoms = 0 := by
    simp [calculate_symptom_match, countContains, List.countP_cons, anxietyDisorderData]
  have hAsthma : calculate_symptom_match ["Fever", "Cough", "Congestion", "Runny nose"] asthmaData.common_symptoms = 1/4 := by
    simp [calculate_symptom_match, countContains, List.countP_cons, asthmaData]
    norm_num
  have hAllergic : calculate_symptom_match ["Fever", "Cough", "Congestion", "Runny nose"] allergicRhinitisData.common_symptoms = 43/100 := by
    simp [calculate_symptom_match, countContains, List.countP_cons, allergicRhinitisData]
    norm_num
  have hIbs : calculate_symptom_match ["Fever", "Cough", "Congestion", "Runny nose"] ibsData.common_symptoms = 0 := by
    simp [calculate_symptom_match, countContains, List.countP_cons, ibsData]
  have hDiab : calculate_symptom_match ["Fever", "Cough", "Congestion", "Runny nose"] diabetesData.common_symptoms = 0 := by
    simp [calculate_symptom_match, countContains, List.countP_cons, diabetesData]
  have hUti : calculate_symptom_match ["Fever", "Cough", "Congestion", "Runny nose"] utiData.common_symptoms = 0 := by
    simp [calculate_symptom_match, countContains, List.countP_cons, utiData]
  have hAnemia : calculate_symptom_match ["Fever", "Cough", "Congestion", "Runny nose"] anemiaData.common_symptoms = 0 := by
    simp [calculate_symptom_match, countContains, List.countP_cons, anemiaData]
  have hcm : condition_matches ["Fever", "Cough", "Congestion", "Runny nose"] =
      [⟨"Common Cold", 23/30, commonColdData⟩,
       ⟨"Influenza (Flu)", 23/60, influenzaData⟩,
       ⟨"COVID-19", 43/100, covid19Data⟩,
       ⟨"Gastroenteritis", 43/200, gastroenteritisData⟩,
       ⟨"Asthma", 1/4, asthmaData⟩,
       ⟨"Allergic Rhinitis", 43/100, allergicRhinitisData⟩] := by
    unfold condition_matches CONDITIONS_DATABASE
    norm_num [List.filterMap_cons, hCold, hFlu, hCovid, hMig, hGastro, hHyper, hAnx,
      hAsthma, hAllergic, hIbs, hDiab, hUti, hAnemia]
  have htop : top_matches ["Fever", "Cough", "Congestion", "Runny nose"] =
      [⟨"Common Cold", 23/30, commonColdData⟩,
       ⟨"COVID-19", 43/100, covid19Data⟩,
       ⟨"Allergic Rhinitis", 43/100, allergicRhinitisData⟩,
       ⟨"Influenza (Flu)", 23/60, influenzaData⟩,
       ⟨"Asthma", 1/4, asthmaData⟩] := by
    unfold top_matches
    rw [hcm]
    norm_num [sortDesc, insertDesc]
  rw [analyze_symptoms_pyList]
  refine ⟨?_, ?_, ?_⟩
  · simp [htop, toConditionView]
  · simp only [htop]
    norm_num [determine_risk_level, severity_factor]
  · simp only [htop]
    norm_num [determine_risk_level, severity_factor, should_seek_medical_attention]
    decide

/-- C1 counterexample: on scenario A the claimed conjunction fails,
because the risk level is "moderate", not "low" (the best match 23/30
exceeds the 0.7 threshold, so base points are 3 and the total 3 meets
the "moderate" threshold). -/
theorem scenarioA_claim_refuted :
    ¬ ((((analyze_symptoms (fun l n => l.take n) (.pyList ["Fever", "Cough", "Congestion", "Runny nose"]) 30 "Male" "Days" "Mild" "").possible_conditions.map ConditionView.name).head? = some "Common Cold") ∧
       (analyze_symptoms (fun l n => l.take n) (.pyList ["Fever", "Cough", "Congestion", "Runny nose"]) 30 "Male" "Days" "Mild" "").risk_level = "low" ∧
       (analyze_symptoms (fun l n => l.take n) (.pyList ["Fever", "Cough", "Congestion", "Runny nose"]) 30 "Male" "Days" "Mild" "").seek_medical_attention = false) := by
  intro h
  have hm := (scenarioA_eval (fun l n => l.take n)).2.1
  rw [h.2.1] at hm
  exact absurd hm (by decide)

/-- C1 amended: on scenario A the top candidate is "Common Cold" and
no medical attention is recommended, but the risk level is "moderate"
(not "low" as claimed). -/
theorem scenarioA_amended (sample : List String → Nat → List String) :
    (((analyze_symptoms sample (.pyList ["Fever", "Cough", "Congestion", "Runny nose"]) 30 "Male" "Days" "Mild" "").possible_conditions.map ConditionView.name).head? = some "Common Cold") ∧
    (analyze_symptoms sample (.pyList ["Fever", "Cough", "Congestion", "Runny nose"]) 30 "Male" "Days" "Mild" "").risk_level = "moderate" ∧
    (analyze_symptoms sample (.pyList ["Fever", "Cough", "Congestion", "Runny nose"]) 30 "Male" "Days" "Mild" "").seek_medical_attention = false := by
  obtain ⟨h1, h2, h3⟩ := scenarioA_eval sample
  refine ⟨?_, h2, h3⟩
  rw [h1]
  rfl

set_option maxHeartbeats 1600000 in
set_option maxRecDepth 8000 in
/-- C9: the advice category is the body system whose representative
list contains the most user symptoms; all counts zero gives "general";
ties go to the category that comes first in the mapping order; and the
final advice is the winning category paragraph of `GENERAL_ADVICE`
with the fixed disclaimer appended. -/
theorem get_system_category_argmax (sample : List String → Nat → List String)
    (symptoms : List String) (age : ℤ) (gender duration severity info : String) :
    ((countContains symptoms ["Cough", "Shortness of breath", "Sore throat", "Runny nose", "Congestion", "Wheezing"] = 0 ∧
      countContains symptoms ["Nausea", "Vomiting", "Diarrhea", "Constipation", "Abdominal pain", "Bloating"] = 0 ∧
      countContains symptoms ["Chest pain", "Rapid heartbeat", "Shortness of breath", "Dizziness", "Fatigue"] = 0 ∧
      countContains symptoms ["Headache", "Dizziness", "Confusion", "Numbness", "Tingling sensation", "Blurred vision"] = 0 ∧
      countContains symptoms ["Muscle pain", "Joint pain", "Back pain", "Weakness"] = 0 ∧
      countContains symptoms ["Anxiety", "Depression", "Insomnia", "Fatigue"] = 0) →
      get_system_category symptoms = "general") ∧
    ((¬ (countContains symptoms ["Cough", "Shortness of breath", "Sore throat", "Runny nose", "Congestion", "Wheezing"] = 0 ∧
      countContains symptoms ["Nausea", "Vomiting", "Diarrhea", "Constipation", "Abdominal pain", "Bloating"] = 0 ∧
      countContains symptoms ["Chest pain", "Rapid heartbeat", "Shortness of breath", "Dizziness", "Fatigue"] = 0 ∧
      countContains symptoms ["Headache", "Dizziness", "Confusion", "Numbness", "Tingling sensation", "Blurred vision"] = 0 ∧
      countContains symptoms ["Muscle pain", "Joint pain", "Back pain", "Weakness"] = 0 ∧
      countContains symptoms ["Anxiety", "Depression", "Insomnia", "Fatigue"] = 0)) →
      ((get_system_category symptoms = "respiratory" ∧
        countContains symptoms ["Nausea", "Vomiting", "Diarrhea", "Constipation", "Abdominal pain", "Bloating"] ≤ countContains symptoms ["Cough", "Shortness of breath", "Sore throat", "Runny nose", "Congestion", "Wheezing"] ∧
        countContains symptoms ["Chest pain", "Rapid heartbeat", "Shortness of breath", "Dizziness", "Fatigue"] ≤ countContains symptoms ["Cough", "Shortness of breath", "Sore throat", "Runny nose", "Congestion", "Wheezing"] ∧
        countContains symptoms ["Headache", "Dizziness", "Confusion", "Numbness", "Tingling sensation", "Blurred vision"] ≤ countContains symptoms ["Cough", "Shortness of breath", "Sore throat", "Runny nose", "Congestion", "Wheezing"] ∧
        countContains symptoms ["Muscle pain", "Joint pain", "Back pain", "Weakness"] ≤ countContains symptoms ["Cough", "Shortness of breath", "Sore throat", "Runny nose", "Congestion", "Wheezing"] ∧
        countContains symptoms ["Anxiety", "Depression", "Insomnia", "Fatigue"] ≤ countContains symptoms ["Cough", "Shortness of breath", "Sore throat", "Runny nose", "Congestion", "Wheezing"]) ∨
       (get_system_category symptoms = "digestive" ∧
        countContains symptoms ["Cough", "Shortness of breath", "Sore throat", "Runny nose", "Congestion", "Wheezing"] < countContains symptoms ["Nausea", "Vomiting", "Diarrhea", "Constipation", "Abdominal pain", "Bloating"] ∧
        countContains symptoms ["Chest pain", "Rapid heartbeat", "Shortness of breath", "Dizziness", "Fatigue"] ≤ countContains symptoms ["Nausea", "Vomiting", "Diarrhea", "Constipation", "Abdominal pain", "Bloating"] ∧
        countContains symptoms ["Headache", "Dizziness", "Confusion", "Numbness", "Tingling sensation", "Blurred vision"] ≤ countContains symptoms ["Nausea", "Vomiting", "Diarrhea", "Constipation", "Abdominal pain", "Bloating"] ∧
        countContains symptoms ["Muscle pain", "Joint pain", "Back pain", "Weakness"] ≤ countContains symptoms ["Nausea", "Vomiting", "Diarrhea", "Constipation", "Abdominal pain", "Bloating"] ∧
        countContains symptoms ["Anxiety", "Depression", "Insomnia", "Fatigue"] ≤ countContains symptoms ["Nausea", "Vomiting", "Diarrhea", "Constipation", "Abdominal pain", "Bloating"]) ∨
       (get_system_category symptoms = "cardiovascular" ∧
        countContains symptoms ["Cough", "Shortness of breath", "Sore throat", "Runny nose", "Congestion", "Wheezing"] < countContains symptoms ["Chest pain", "Rapid heartbeat", "Shortness of breath", "Dizziness", "Fatigue"] ∧
        countContains symptoms ["Nausea", "Vomiting", "Diarrhea", "Constipation", "Abdominal pain", "Bloating"] < countContains symptoms ["Chest pain", "Rapid heartbeat", "Shortness of breath", "Dizziness", "Fatigue"] ∧
        countContains symptoms ["Headache", "Dizziness", "Confusion", "Numbness", "Tingling sensation", "Blurred vision"] ≤ countContains symptoms ["Chest pain", "Rapid heartbeat", "Shortness of breath", "Dizziness", "Fatigue"] ∧
        countContains symptoms ["Muscle pain", "Joint pain", "Back pain", "Weakness"] ≤ countContains symptoms ["Chest pain", "Rapid heartbeat", "Shortness of breath", "Dizziness", "Fatigue"] ∧
        countContains symptoms ["Anxiety", "Depression", "Insomnia", "Fatigue"] ≤ countContains symptoms ["Chest pain", "Rapid heartbeat", "Shortness of breath", "Dizziness", "Fatigue"]) ∨
       (get_system_category symptoms = "neurological" ∧
        countContains symptoms ["Cough", "Shortness of breath", "Sore throat", "Runny nose", "Congestion", "Wheezing"] < countContains symptoms ["Headache", "Dizziness", "Confusion", "Numbness", "Tingling sensation", "Blurred vision"] ∧
        countContains symptoms ["Nausea", "Vomiting", "Diarrhea", "Constipation", "Abdominal pain", "Bloating"] < countContains symptoms ["Headache", "Dizziness", "Confusion", "Numbness", "Tingling sensation", "Blurred vision"] ∧
        countContains symptoms ["Chest pain", "Rapid heartbeat", "Shortness of breath", "Dizziness", "Fatigue"] < countContains symptoms ["Headache", "Dizziness", "Confusion", "Numbness", "Tingling sensation", "Blurred vision"] ∧
        countContains symptoms ["Muscle pain", "Joint pain", "Back pain", "Weakness"] ≤ countContains symptoms ["Headache", "Dizziness", "Confusion", "Numbness", "Tingling sensation", "Blurred vision"] ∧
        countContains symptoms ["Anxiety", "Depression", "Insomnia", "Fatigue"] ≤ countContains symptoms ["Headache", "Dizziness", "Confusion", "Numbness", "Tingling sensation", "Blurred vision"]) ∨
       (get_system_category symptoms = "musculoskeletal" ∧
        countContains symptoms ["Cough", "Shortness of breath", "Sore throat", "Runny nose", "Congestion", "Wheezing"] < countContains symptoms ["Muscle pain", "Joint pain", "Back pain", "Weakness"] ∧
        countContains symptoms ["Nausea", "Vomiting", "Diarrhea", "Constipation", "Abdominal pain", "Bloating"] < countContains symptoms ["Muscle pain", "Joint pain", "Back pain", "Weakness"] ∧
        countContains symptoms ["Chest pain", "Rapid heartbeat", "Shortness of breath", "Dizziness", "Fatigue"] < countContains symptoms ["Muscle pain", "Joint pain", "Back pain", "Weakness"] ∧
        countContains symptoms ["Headache", "Dizziness", "Confusion", "Numbness", "Tingling sensation", "Blurred vision"] < countContains symptoms ["Muscle pain", "Joint pain", "Back pain", "Weakness"] ∧
        countContains symptoms ["Anxiety", "Depression", "Insomnia", "Fatigue"] ≤ countContains symptoms ["Muscle pain", "Joint pain", "Back pain", "Weakness"]) ∨
       (get_system_category symptoms = "mental_health" ∧
        countContains symptoms ["Cough", "Shortness of breath", "Sore throat", "Runny nose", "Congestion", "Wheezing"] < countContains symptoms ["Anxiety", "Depression", "Insomnia", "Fatigue"] ∧
        countContains symptoms ["Nausea", "Vomiting", "Diarrhea", "Constipation", "Abdominal pain", "Bloating"] < countContains symptoms ["Anxiety", "Depression", "Insomnia", "Fatigue"] ∧
        countContains symptoms ["Chest pain", "Rapid heartbeat", "Shortness of breath", "Dizziness", "Fatigue"] < countContains symptoms ["Anxiety", "Depression", "Insomnia", "Fatigue"] ∧
        countContains symptoms ["Headache", "Dizziness", "Confusion", "Numbness", "Tingling sensation", "Blurred vision"] < countContains symptoms ["Anxiety", "Depression", "Insomnia", "Fatigue"] ∧
        countContains symptoms ["Muscle pain", "Joint pain", "Back pain", "Weakness"] < countContains symptoms ["Anxiety", "Depression", "Insomnia", "Fatigue"]))) ∧
    (∃ para, (get_system_category symptoms, para) ∈ GENERAL_ADVICE ∧
      (analyze_symptoms sample (.pyList symptoms) age gender duration severity info).general_advice =
        para ++ DISCLAIMER) := by
  refine ⟨fun hz => ?_, fun hnz => ?_, ?_⟩
  · obtain ⟨h1, h2, h3, h4, h5, h6⟩ := hz
    simp [get_system_category, system_counts, system_mapping, h1, h2, h3, h4, h5, h6]
  · simp only [get_system_category, system_counts, system_mapping, List.map_cons,
      List.map_nil, List.any_cons, List.any_nil, pyMaxBySnd, List.foldl_cons,
      List.foldl_nil]
    split_ifs <;> simp_all <;> omega
  · simp only [analyze_symptoms_pyList, get_system_category, system_counts,
      system_mapping, List.map_cons, List.map_nil, List.any_cons, List.any_nil,
      pyMaxBySnd, List.foldl_cons, List.foldl_nil]
    split_ifs <;> (try dsimp only) <;> refine ⟨_, ?_, rfl⟩ <;> decide

/-- Witness for C9 at the single symptom "Headache", which falls only
in the neurological category. -/
theorem get_system_category_argmax_witness :
    ((get_system_category ["Headache"] = "respiratory" ∧
      countContains ["Headache"] ["Nausea", "Vomiting", "Diarrhea", "Constipation", "Abdominal pain", "Bloating"] ≤ countContains ["Headache"] ["Cough", "Shortness of breath", "Sore throat", "Runny nose", "Congestion", "Wheezing"] ∧
      countContains ["Headache"] ["Chest pain", "Rapid heartbeat", "Shortness of breath", "Dizziness", "Fatigue"] ≤ countContains ["Headache"] ["Cough", "Shortness of breath", "Sore throat", "Runny nose", "Congestion", "Wheezing"] ∧
      countContains ["Headache"] ["Headache", "Dizziness", "Confusion", "Numbness", "Tingling sensation", "Blurred vision"] ≤ countContains ["Headache"] ["Cough", "Shortness of breath", "Sore throat", "Runny nose", "Congestion", "Wheezing"] ∧
      countContains ["Headache"] ["Muscle pain", "Joint pain", "Back pain", "Weakness"] ≤ countContains ["Headache"] ["Cough", "Shortness of breath", "Sore throat", "Runny nose", "Congestion", "Wheezing"] ∧
      countContains ["Headache"] ["Anxiety", "Depression", "Insomnia", "Fatigue"] ≤ countContains ["Headache"] ["Cough", "Shortness of breath", "Sore throat", "Runny nose", "Congestion", "Wheezing"]) ∨
     (get_system_category ["Headache"] = "digestive" ∧
      countContains ["Headache"] ["Cough", "Shortness of breath", "Sore throat", "Runny nose", "Congestion", "Wheezing"] < countContains ["Headache"] ["Nausea", "Vomiting", "Diarrhea", "Constipation", "Abdominal pain", "Bloating"] ∧
      countContains ["Headache"] ["Chest pain", "Rapid heartbeat", "Shortness of breath", "Dizziness", "Fatigue"] ≤ countContains ["Headache"] ["Nausea", "Vomiting", "Diarrhea", "Constipation", "Abdominal pain", "Bloating"] ∧
      countContains ["Headache"] ["Headache", "Dizziness", "Confusion", "Numbness", "Tingling sensation", "Blurred vision"] ≤ countContains ["Headache"] ["Nausea", "Vomiting", "Diarrhea", "Constipation", "Abdominal pain", "Bloating"] ∧
      countContains ["Headache"] ["Muscle pain", "Joint pain", "Back pain", "Weakness"] ≤ countContains ["Headache"] ["Nausea", "Vomiting", "Diarrhea", "Constipation", "Abdominal pain", "Bloating"] ∧
      countContains ["Headache"] ["Anxiety", "Depression", "Insomnia", "Fatigue"] ≤ countContains ["Headache"] ["Nausea", "Vomiting", "Diarrhea", "Constipation", "Abdominal pain", "Bloating"]) ∨
     (get_system_category ["Headache"] = "cardiovascular" ∧
      countContains ["Headache"] ["Cough", "Shortness of breath", "Sore throat", "Runny nose", "Congestion", "Wheezing"] < countContains ["Headache"] ["Chest pain", "Rapid heartbeat", "Shortness of breath", "Dizziness", "Fatigue"] ∧
      countContains ["Headache"] ["Nausea", "Vomiting", "Diarrhea", "Constipation", "Abdominal pain", "Bloating"] < countContains ["Headache"] ["Chest pain", "Rapid heartbeat", "Shortness of breath", "Dizziness", "Fatigue"] ∧
      countContains ["Headache"] ["Headache", "Dizziness", "Confusion", "Numbness", "Tingling sensation", "Blurred vision"] ≤ countContains ["Headache"] ["Chest pain", "Rapid heartbeat", "Shortness of breath", "Dizziness", "Fatigue"] ∧
      countContains ["Headache"] ["Muscle pain", "Joint pain", "Back pain", "Weakness"] ≤ countContains ["Headache"] ["Chest pain", "Rapid heartbeat", "Shortness of breath", "Dizziness", "Fatigue"] ∧
      countContains ["Headache"] ["Anxiety", "Depression", "Insomnia", "Fatigue"] ≤ countContains ["Headache"] ["Chest pain", "Rapid heartbeat", "Shortness of breath", "Dizziness", "Fatigue"]) ∨
     (get_system_category ["Headache"] = "neurological" ∧
      countContains ["Headache"] ["Cough", "Shortness of breath", "Sore throat", "Runny nose", "Congestion", "Wheezing"] < countContains ["Headache"] ["Headache", "Dizziness", "Confusion", "Numbness", "Tingling sensation", "Blurred vision"] ∧
      countContains ["Headache"] ["Nausea", "Vomiting", "Diarrhea", "Constipation", "Abdominal pain", "Bloating"] < countContains ["Headache"] ["Headache", "Dizziness", "Confusion", "Numbness", "Tingling sensation", "Blurred vision"] ∧
      countContains ["Headache"] ["Chest pain", "Rapid heartbeat", "Shortness of breath", "Dizziness", "Fatigue"] < countContains ["Headache"] ["Headache", "Dizziness", "Confusion", "Numbness", "Tingling sensation", "Blurred vision"] ∧
      countContains ["Headache"] ["Muscle pain", "Joint pain", "Back pain", "Weakness"] ≤ countContains ["Headache"] ["Headache", "Dizziness", "Confusion", "Numbness", "Tingling sensation", "Blurred vision"] ∧
      countContains ["Headache"] ["Anxiety", "Depression", "Insomnia", "Fatigue"] ≤ countContains ["Headache"] ["Headache", "Dizziness", "Confusion", "Numbness", "Tingling sensation", "Blurred vision"]) ∨
     (get_system_category ["Headache"] = "musculoskeletal" ∧
      countContains ["Headache"] ["Cough", "Shortness of breath", "Sore throat", "Runny nose", "Congestion", "Wheezing"] < countContains ["Headache"] ["Muscle pain", "Joint pain", "Back pain", "Weakness"] ∧
      countContains ["Headache"] ["Nausea", "Vomiting", "Diarrhea", "Constipation", "Abdominal pain", "Bloating"] < countContains ["Headache"] ["Muscle pain", "Joint pain", "Back pain", "Weakness"] ∧
      countContains ["Headache"] ["Chest pain", "Rapid heartbeat", "Shortness of breath", "Dizziness", "Fatigue"] < countContains ["Headache"] ["Muscle pain", "Joint pain", "Back pain", "Weakness"] ∧
      countContains ["Headache"] ["Headache", "Dizziness", "Confusion", "Numbness", "Tingling sensation", "Blurred vision"] < countContains ["Headache"] ["Muscle pain", "Joint pain", "Back pain", "Weakness"] ∧
      countContains ["Headache"] ["Anxiety", "Depression", "Insomnia", "Fatigue"] ≤ countContains ["Headache"] ["Muscle pain", "Joint pain", "Back pain", "Weakness"]) ∨
     (get_system_category ["Headache"] = "mental_health" ∧
      countContains ["Headache"] ["Cough", "Shortness of breath", "Sore throat", "Runny nose", "Congestion", "Wheezing"] < countContains ["Headache"] ["Anxiety", "Depression", "Insomnia", "Fatigue"] ∧
      countContains ["Headache"] ["Nausea", "Vomiting", "Diarrhea", "Constipation", "Abdominal pain", "Bloating"] < countContains ["Headache"] ["Anxiety", "Depression", "Insomnia", "Fatigue"] ∧
      countContains ["Headache"] ["Chest pain", "Rapid heartbeat", "Shortness of breath", "Dizziness", "Fatigue"] < countContains ["Headache"] ["Anxiety", "Depression", "Insomnia", "Fatigue"] ∧
      countContains ["Headache"] ["Headache", "Dizziness", "Confusion", "Numbness", "Tingling sensation", "Blurred vision"] < countContains ["Headache"] ["Anxiety", "Depression", "Insomnia", "Fatigue"] ∧
      countContains ["Headache"] ["Muscle pain", "Joint pain", "Back pain", "Weakness"] < countContains ["Headache"] ["Anxiety", "Depression", "Insomnia", "Fatigue"])) :=
  (get_system_category_argmax (fun l n => l.take n) ["Headache"] 30 "Male" "Days" "Mild" "").2.1
    (by decide)
